import Mathlib

/-!
Verification of the zotero-client library core: the duplicate-detection
heuristic, the attachment transfer protocol, the optimistic-concurrency
header construction, and the JSON-to-record parsing, shallowly embedded
from src/zotero_client/api/client.py and src/zotero_client/models/item.py.

Python dictionaries are modelled as insertion-ordered association lists
with unique keys (Python dicts preserve insertion order). JSON values are
an inductive type. HTTP traffic is modelled by an oracle function from
requests to responses, and each client method returns the ordered trace
of the side effects it performs together with its result.
-/

namespace Zotero

/-- JSON values as delivered by the Zotero API (numbers restricted to
integers, which is all this client ever produces or inspects). -/
inductive Json where
  | null : Json
  | bool (b : Bool) : Json
  | num (n : Int) : Json
  | str (s : String) : Json
  | arr (elems : List Json) : Json
  | obj (fields : List (String × Json)) : Json

/-- Python dict.get(k): first binding of the key in the association list. -/
def dGet {α : Type} (d : List (String × α)) (k : String) : Option α :=
  match d with
  | [] => none
  | p :: ps => if p.1 = k then some p.2 else dGet ps k

/-- Python dict assignment d[k] = v: replace the binding in place when the
key is present, otherwise append the new binding at the end (insertion
order semantics of Python dicts). -/
def dSet {α : Type} (d : List (String × α)) (k : String) (v : α) : List (String × α) :=
  if d.any (fun p => p.1 = k) then d.map (fun p => if p.1 = k then (k, v) else p)
  else d ++ [(k, v)]

/-- Python str.isalnum restricted to the ASCII range used by the tests. -/
def pyIsAlnum (c : Char) : Bool := c.isAlphanum

/-- Python str.lower, character by character (ASCII). -/
def pyLower (s : String) : String := String.mk (s.data.map Char.toLower)

/-- The typed view of the Item dataclass of src/zotero_client/models/item.py,
with the field types the Zotero API actually delivers (every creator is a
dict of strings). The duplicate detector operates on this view. -/
structure Item where
  key : String
  title : String
  item_type : String
  creators : List (List (String × String))
  date : String
  url : String
  version : Int
  parent_item : Option String
  abstract_note : Option String
deriving DecidableEq

/-- Line 307 of client.py: join of filter(str.isalnum, item.title), then
str.lower, keeping only alphanumeric characters of the title, lowercased,
concatenated with no separators. -/
def normalizedTitle (t : String) : String :=
  pyLower (String.mk (t.data.filter pyIsAlnum))

/-- Insertion of a string into a sorted list, preserving sortedness. -/
def insertSorted (s : String) : List String → List String
  | [] => [s]
  | t :: ts => if s ≤ t then s :: t :: ts else t :: insertSorted s ts

/-- Python sorted on a list of strings (lexicographic ascending). -/
def sortedStrings (l : List String) : List String := l.foldr insertSorted []

/-- Line 310 of client.py: the list comprehension
sorted of c.get(lastName, empty).lower() for c in creators if c.get(lastName),
where the guard is Python truthiness (the last name is present and
non-empty). -/
def creatorLastNames (creators : List (List (String × String))) : List String :=
  sortedStrings
    ((creators.filter (fun c => (dGet c "lastName").getD "" ≠ "")).map
      (fun c => pyLower ((dGet c "lastName").getD "")))

/-- Join of a list of strings with an underscore separator, as in the
Python expression underscore.join(creator_last_names). -/
def joinUnderscore : List String → String
  | [] => ""
  | [s] => s
  | s :: rest => s ++ "_" ++ joinUnderscore rest

/-- Line 311 of client.py: underscore join of the sorted last names. -/
def creatorsKey (creators : List (List (String × String))) : String :=
  joinUnderscore (creatorLastNames creators)

/-- Lines 314 to 319 of client.py: the year is the substring of the date
before the first dash (the head of date.split on dash), computed only when
the date is truthy (non-empty). -/
def yearOf (date : String) : Option String :=
  if date ≠ "" then some (String.mk (date.data.takeWhile (fun c => c ≠ '-'))) else none

/-- Lines 321 to 324 of client.py: the duplicate key is built only when the
normalized title, the creators key, and the year are all truthy. -/
def fingerprint (it : Item) : Option String :=
  let nt := normalizedTitle it.title
  let ck := creatorsKey it.creators
  match yearOf it.date with
  | some y => if nt ≠ "" ∧ ck ≠ "" ∧ y ≠ "" then some (nt ++ "-" ++ ck ++ "-" ++ y) else none
  | none => none

/-- The two Python dicts item_map and duplicates maintained by the loop of
find_duplicates, as insertion-ordered association lists. -/
structure DupState where
  item_map : List (String × Item)
  dups : List (String × List Item)
deriving DecidableEq

/-- One iteration of the loop of find_duplicates (lines 305 to 331 of
client.py): items without a fingerprint are skipped; the first item seen
with a given key is remembered in item_map; a second item with the same
key creates the group seeded with the remembered first item; later items
with the key are appended to the existing group. -/
def dupStep (st : DupState) (it : Item) : DupState :=
  match fingerprint it with
  | none => st
  | some k =>
    match dGet st.item_map k with
    | none => { item_map := st.item_map ++ [(k, it)], dups := st.dups }
    | some fst =>
      match dGet st.dups k with
      | none =>
        { item_map := st.item_map, dups := st.dups ++ [(k, [fst, it])] }
      | some grp =>
        { item_map := st.item_map,
          dups := st.dups.map (fun p => if p.1 = k then (k, grp ++ [it]) else p) }

/-- The pure core of ZoteroClient.find_duplicates (lines 293 to 332 of
client.py), applied to the materialized list of library items: fold the
loop body over the items and return the duplicates mapping. -/
def findDuplicates (items : List Item) : List (String × List Item) :=
  (items.foldl dupStep { item_map := [], dups := [] }).dups

/-- The sublist of the input holding exactly the items whose fingerprint is
the given key, in input order. -/
def withFp (k : String) (l : List Item) : List Item :=
  l.filter (fun it => fingerprint it = some k)

/-- The value the duplicates mapping associates to a key after processing a
list: the full fingerprint class when it has at least two members, absent
otherwise. -/
def dupVal (k : String) (l : List Item) : Option (List Item) :=
  if 2 ≤ (withFp k l).length then some (withFp k l) else none

/-- Errors a client method can surface: an HTTP error status (Python
raise_for_status), a ValueError with its message, a missing local file, and
the dynamic-typing errors AttributeError, TypeError, KeyError, IndexError
raised by attribute access or subscripting on unexpected JSON shapes. -/
inductive ZError where
  | httpStatus (code : Nat) : ZError
  | valueError (msg : String) : ZError
  | fileNotFound (path : String) : ZError
  | attributeError : ZError
  | typeError : ZError
  | keyError (k : String) : ZError
  | indexError : ZError
deriving DecidableEq

/-- The dynamic view of the Item dataclass: the fields exactly as
Item.from_api_response stores them, untyped JSON values (Python performs no
validation on them); None is modelled by Json.null. -/
structure PyItem where
  key : Json
  title : Json
  item_type : Json
  creators : Json
  date : Json
  url : Json
  version : Json
  parent_item : Json
  links : Json
  abstract_note : Json

/-- Item.from_api_response (lines 17 to 32 of models/item.py) on a Python
dict: take the data envelope (default empty dict), read each field with
dict.get and the recorded default; version and links are read from the top
level. When the data entry is present but is not a dict, the attribute
access item_data.get raises AttributeError. -/
def fromApiResponseD (data : List (String × Json)) : Except ZError PyItem :=
  match (dGet data "data").getD (Json.obj []) with
  | Json.obj item_data =>
    Except.ok
      { key := (dGet item_data "key").getD (Json.str "")
        title := (dGet item_data "title").getD (Json.str "")
        item_type := (dGet item_data "itemType").getD (Json.str "")
        creators := (dGet item_data "creators").getD (Json.arr [])
        date := (dGet item_data "date").getD (Json.str "")
        url := (dGet item_data "url").getD (Json.str "")
        version := (dGet data "version").getD (Json.num 0)
        parent_item := (dGet item_data "parentItem").getD Json.null
        links := (dGet data "links").getD (Json.obj [])
        abstract_note := (dGet item_data "abstractNote").getD Json.null }
  | _ => Except.error ZError.attributeError

/-- Item.from_api_response on an arbitrary JSON value: a non-dict argument
raises AttributeError at the first dict.get call. -/
def fromApiResponseJ (j : Json) : Except ZError PyItem :=
  match j with
  | Json.obj data => fromApiResponseD data
  | _ => Except.error ZError.attributeError

/-- The Collection dataclass fields as Collection.from_api_response stores
them (models/collection.py, lines 12 to 20). -/
structure PyCollection where
  key : Json
  name : Json
  version : Json
  parent_collection : Json

/-- Collection.from_api_response on a Python dict. -/
def collectionFromApiResponseD (data : List (String × Json)) : Except ZError PyCollection :=
  match (dGet data "data").getD (Json.obj []) with
  | Json.obj collection_data =>
    Except.ok
      { key := (dGet collection_data "key").getD (Json.str "")
        name := (dGet collection_data "name").getD (Json.str "")
        version := (dGet data "version").getD (Json.num 0)
        parent_collection := (dGet collection_data "parentCollection").getD Json.null }
  | _ => Except.error ZError.attributeError

/-- HTTP methods used by the client. -/
inductive Method where
  | get : Method
  | post : Method
  | put : Method
  | delete : Method
deriving DecidableEq

/-- An outgoing HTTP request: method, URL, headers, query parameters, JSON
body (requests json argument) and raw byte body (requests data argument).
Bytes are modelled as lists of naturals. -/
structure Request where
  method : Method
  url : String
  headers : List (String × String)
  params : List (String × String)
  jsonBody : Option Json
  rawBody : Option (List Nat)

/-- An HTTP response: status code, JSON body (response.json()) and raw byte
body (the streamed content). -/
structure Response where
  status : Nat
  body : Json
  raw : List Nat

/-- Python requests raise_for_status: raises exactly for 4xx and 5xx status
codes. -/
def raisesStatus (s : Nat) : Bool := decide (400 ≤ s) && decide (s < 600)

/-- The observable side effects of a client method, in the order performed:
an HTTP call, a full read of a local file, a full (overwriting) write of a
local file. -/
inductive Event where
  | http (r : Request) : Event
  | fileRead (path : String) : Event
  | fileWrite (path : String) (bytes : List Nat) : Event

/-- The read-only configuration of ZoteroClient (lines 17 to 31 of
client.py). -/
structure Client where
  api_key : String
  user_id : String
  library_type : String

/-- The base headers built in the constructor: the Zotero-API-Key header. -/
def Client.headersL (c : Client) : List (String × String) :=
  [("Zotero-API-Key", c.api_key)]

def baseUrl : String := "https://api.zotero.org"

def itemsUrl (c : Client) : String :=
  baseUrl ++ "/" ++ c.library_type ++ "/" ++ c.user_id ++ "/items"

def itemUrl (c : Client) (itemId : String) : String :=
  itemsUrl c ++ "/" ++ itemId

def itemsNewUrl (c : Client) : String :=
  itemsUrl c ++ "/new"

def collectionsUrl (c : Client) : String :=
  baseUrl ++ "/" ++ c.library_type ++ "/" ++ c.user_id ++ "/collections"

def collectionUrl (c : Client) (collectionId : String) : String :=
  collectionsUrl c ++ "/" ++ collectionId

def itemTagsUrl (c : Client) (itemId : String) : String :=
  itemUrl c itemId ++ "/tags"

def itemTagUrl (c : Client) (itemId tagName : String) : String :=
  itemTagsUrl c itemId ++ "/" ++ tagName

/-- Python subscripting j[k] on a JSON value: KeyError when the key is
missing from a dict, TypeError when the value is not a dict. -/
def jIndex (j : Json) (k : String) : Except ZError Json :=
  match j with
  | Json.obj d =>
    match dGet d k with
    | some v => Except.ok v
    | none => Except.error (ZError.keyError k)
  | _ => Except.error ZError.typeError

/-- os.path.basename: the part of the path after the last slash. -/
def basename (p : String) : String :=
  String.mk ((p.data.reverse.takeWhile (fun c => c ≠ '/')).reverse)

/-- Lines 172 to 173 of client.py: the attachment title defaults to the
filename when the caller supplies none. -/
def resolvedTitle (title : Option String) (filename : String) : String :=
  match title with
  | some t => t
  | none => filename

/-- The template request of get_attachment_template (lines 351 to 369 of
client.py): GET on items/new with itemType attachment, and, when the parent
item id is truthy (non-empty), linkMode imported_url and parentItem. -/
def templateRequest (c : Client) (itemId : String) : Request :=
  { method := Method.get
    url := itemsNewUrl c
    headers := c.headersL
    params :=
      [("itemType", "attachment")] ++
        (if itemId ≠ "" then [("linkMode", "imported_url"), ("parentItem", itemId)] else [])
    jsonBody := none
    rawBody := none }

/-- ZoteroClient.get_attachment_template: issue the template request and
return the JSON body, raising on a 4xx or 5xx status. -/
def getAttachmentTemplate (c : Client) (net : Request → Response) (itemId : String) :
    List Event × Except ZError Json :=
  let req := templateRequest c itemId
  let resp := net req
  if raisesStatus resp.status then ([Event.http req], Except.error (ZError.httpStatus resp.status))
  else ([Event.http req], Except.ok resp.body)

/-- Lines 175 to 179 of client.py: the five successive dict assignments
overlaying the attachment metadata onto the template. -/
def attachmentPayload (tf : List (String × Json)) (parentItemId filename title : String) :
    List (String × Json) :=
  dSet (dSet (dSet (dSet (dSet tf "title" (Json.str title))
    "parentItem" (Json.str parentItemId))
    "filename" (Json.str filename))
    "contentType" (Json.str "application/octet-stream"))
    "linkMode" (Json.str "imported_file")

/-- The create request of upload_attachment (lines 182 to 183 of client.py):
POST of the single-element array holding the overlaid template. -/
def createRequest (c : Client) (payload : List (String × Json)) : Request :=
  { method := Method.post
    url := itemsUrl c
    headers := c.headersL
    params := []
    jsonBody := some (Json.arr [Json.obj payload])
    rawBody := none }

/-- The file-content request of upload_attachment (lines 193 to 195 of
client.py): PUT of the raw bytes to the upload href, with the base headers
plus Content-Type application/octet-stream. -/
def putFileRequest (c : Client) (url : String) (bytes : List Nat) : Request :=
  { method := Method.put
    url := url
    headers := dSet c.headersL "Content-Type" "application/octet-stream"
    params := []
    jsonBody := none
    rawBody := some bytes }

/-- The navigation links.file.href through the create response (line 189 of
client.py); requests rejects a non-string URL, modelled as TypeError. -/
def hrefOf (cd : Json) : Except ZError String :=
  match jIndex cd "links" with
  | Except.error e => Except.error e
  | Except.ok l1 =>
    match jIndex l1 "file" with
    | Except.error e => Except.error e
    | Except.ok l2 =>
      match jIndex l2 "href" with
      | Except.error e => Except.error e
      | Except.ok (Json.str u) => Except.ok u
      | Except.ok _ => Except.error ZError.typeError

/-- ZoteroClient.upload_attachment (lines 155 to 198 of client.py): fetch
the attachment template, overlay title (defaulting to the file base name),
parentItem, filename, contentType and linkMode, POST the single-element
batch, parse the first element of the response as the created item, then
open and read the local file and PUT its bytes to the links.file.href of
the create response. The local filesystem is the oracle fs; a missing file
surfaces as FileNotFoundError at open time, after both network calls. -/
def uploadAttachment (c : Client) (net : Request → Response) (fs : String → Option (List Nat))
    (parentItemId filePath : String) (title : Option String) :
    List Event × Except ZError PyItem :=
  match getAttachmentTemplate c net parentItemId with
  | (tr1, Except.error e) => (tr1, Except.error e)
  | (tr1, Except.ok tBody) =>
    match tBody with
    | Json.obj tf =>
      let payload := attachmentPayload tf parentItemId (basename filePath)
        (resolvedTitle title (basename filePath))
      let cReq := createRequest c payload
      let cResp := net cReq
      if raisesStatus cResp.status then
        (tr1 ++ [Event.http cReq], Except.error (ZError.httpStatus cResp.status))
      else
        match cResp.body with
        | Json.arr (cd :: _) =>
          match fromApiResponseJ cd with
          | Except.error e => (tr1 ++ [Event.http cReq], Except.error e)
          | Except.ok itm =>
            match hrefOf cd with
            | Except.error e => (tr1 ++ [Event.http cReq], Except.error e)
            | Except.ok u =>
              match fs filePath with
              | none => (tr1 ++ [Event.http cReq], Except.error (ZError.fileNotFound filePath))
              | some bytes =>
                let pReq := putFileRequest c u bytes
                let pResp := net pReq
                if raisesStatus pResp.status then
                  (tr1 ++ [Event.http cReq, Event.fileRead filePath, Event.http pReq],
                    Except.error (ZError.httpStatus pResp.status))
                else
                  (tr1 ++ [Event.http cReq, Event.fileRead filePath, Event.http pReq],
                    Except.ok itm)
        | Json.arr [] => (tr1 ++ [Event.http cReq], Except.error ZError.indexError)
        | _ => (tr1 ++ [Event.http cReq], Except.error ZError.typeError)
    | _ => (tr1, Except.error ZError.typeError)

/-- The metadata request of get_item (lines 67 to 80 of client.py). -/
def getItemRequest (c : Client) (itemId : String) : Request :=
  { method := Method.get
    url := itemUrl c itemId
    headers := c.headersL
    params := []
    jsonBody := none
    rawBody := none }

/-- The file-content GET of download_attachment (line 220 of client.py). -/
def fileGetRequest (c : Client) (url : String) : Request :=
  { method := Method.get
    url := url
    headers := c.headersL
    params := []
    jsonBody := none
    rawBody := none }

/-- Python equality of a JSON value with a string literal: true exactly for
the equal string (comparison of a non-string with a string is just False,
never an error). -/
def pyEqStr (j : Json) (s : String) : Bool :=
  match j with
  | Json.str t => t = s
  | _ => false

/-- ZoteroClient.download_attachment (lines 200 to 227 of client.py): fetch
the item metadata, fail with ValueError naming the id when the item type is
not attachment, fail with ValueError naming the id when the links dict has
no file entry, otherwise GET links.file.href and write the full response
body to the output path (mode wb, overwriting), returning the output path. -/
def downloadAttachment (c : Client) (net : Request → Response) (attachmentId outputPath : String) :
    List Event × Except ZError String :=
  let gReq := getItemRequest c attachmentId
  let gResp := net gReq
  if raisesStatus gResp.status then
    ([Event.http gReq], Except.error (ZError.httpStatus gResp.status))
  else
    match fromApiResponseJ gResp.body with
    | Except.error e => ([Event.http gReq], Except.error e)
    | Except.ok itm =>
      if ¬ pyEqStr itm.item_type "attachment" then
        ([Event.http gReq],
          Except.error (ZError.valueError ("Item " ++ attachmentId ++ " is not an attachment.")))
      else
        match itm.links with
        | Json.obj lf =>
          match dGet lf "file" with
          | none =>
            ([Event.http gReq],
              Except.error (ZError.valueError
                ("Attachment " ++ attachmentId ++ " does not have a downloadable file.")))
          | some fv =>
            match jIndex fv "href" with
            | Except.error e => ([Event.http gReq], Except.error e)
            | Except.ok (Json.str u) =>
              let fReq := fileGetRequest c u
              let fResp := net fReq
              if raisesStatus fResp.status then
                ([Event.http gReq, Event.http fReq],
                  Except.error (ZError.httpStatus fResp.status))
              else
                ([Event.http gReq, Event.http fReq, Event.fileWrite outputPath fResp.raw],
                  Except.ok outputPath)
            | Except.ok _ => ([Event.http gReq], Except.error ZError.typeError)
        | _ => ([Event.http gReq], Except.error ZError.typeError)

/-- The conditional headers of every mutating method: copy the base headers
and, when the optional version argument is truthy in the Python sense (not
None and not zero), add If-Unmodified-Since-Version with str of the
version. -/
def condHeaders (c : Client) (v : Option Int) : List (String × String) :=
  match v with
  | some n => if n ≠ 0 then dSet c.headersL "If-Unmodified-Since-Version" (toString n)
              else c.headersL
  | none => c.headersL

/-- The PUT request of update_item (lines 97 to 115 of client.py). -/
def updateItemRequest (c : Client) (itemId : String) (itemData : Json) (v : Option Int) : Request :=
  { method := Method.put
    url := itemUrl c itemId
    headers := condHeaders c v
    params := []
    jsonBody := some itemData
    rawBody := none }

/-- The DELETE request of delete_item (lines 117 to 131 of client.py). -/
def deleteItemRequest (c : Client) (itemId : String) (v : Option Int) : Request :=
  { method := Method.delete
    url := itemUrl c itemId
    headers := condHeaders c v
    params := []
    jsonBody := none
    rawBody := none }

/-- The PUT request of update_collection (lines 398 to 416 of client.py). -/
def updateCollectionRequest (c : Client) (collectionId : String) (collectionData : Json)
    (v : Option Int) : Request :=
  { method := Method.put
    url := collectionUrl c collectionId
    headers := condHeaders c v
    params := []
    jsonBody := some collectionData
    rawBody := none }

/-- The DELETE request of delete_collection (lines 418 to 432 of client.py). -/
def deleteCollectionRequest (c : Client) (collectionId : String) (v : Option Int) : Request :=
  { method := Method.delete
    url := collectionUrl c collectionId
    headers := condHeaders c v
    params := []
    jsonBody := none
    rawBody := none }

/-- The POST request of add_tags_to_item (lines 452 to 468 of client.py):
body is the list of single-key tag dicts. -/
def addTagsRequest (c : Client) (itemId : String) (tags : List String) (v : Option Int) : Request :=
  { method := Method.post
    url := itemTagsUrl c itemId
    headers := condHeaders c v
    params := []
    jsonBody := some (Json.arr (tags.map (fun tagName => Json.obj [("tag", Json.str tagName)])))
    rawBody := none }

/-- The per-tag DELETE request of remove_tags_from_item (lines 479 to 484 of
client.py). -/
def removeTagRequest (c : Client) (itemId tagName : String) (v : Option Int) : Request :=
  { method := Method.delete
    url := itemTagUrl c itemId tagName
    headers := condHeaders c v
    params := []
    jsonBody := none
    rawBody := none }

/-- ZoteroClient.update_item: PUT the item data with the conditional
headers and parse the first element of the response array. -/
def updateItem (c : Client) (net : Request → Response) (itemId : String) (itemData : Json)
    (v : Option Int) : List Event × Except ZError PyItem :=
  let req := updateItemRequest c itemId itemData v
  let resp := net req
  if raisesStatus resp.status then
    ([Event.http req], Except.error (ZError.httpStatus resp.status))
  else
    match resp.body with
    | Json.arr (x :: _) => ([Event.http req], fromApiResponseJ x)
    | Json.arr [] => ([Event.http req], Except.error ZError.indexError)
    | _ => ([Event.http req], Except.error ZError.typeError)

/-- ZoteroClient.delete_item: DELETE with the conditional headers. -/
def deleteItem (c : Client) (net : Request → Response) (itemId : String) (v : Option Int) :
    List Event × Except ZError Unit :=
  let req := deleteItemRequest c itemId v
  let resp := net req
  if raisesStatus resp.status then
    ([Event.http req], Except.error (ZError.httpStatus resp.status))
  else ([Event.http req], Except.ok ())

/-- ZoteroClient.update_collection: PUT the collection data with the
conditional headers and parse the first element of the response array. -/
def updateCollection (c : Client) (net : Request → Response) (collectionId : String)
    (collectionData : Json) (v : Option Int) : List Event × Except ZError PyCollection :=
  let req := updateCollectionRequest c collectionId collectionData v
  let resp := net req
  if raisesStatus resp.status then
    ([Event.http req], Except.error (ZError.httpStatus resp.status))
  else
    match resp.body with
    | Json.arr (Json.obj d :: _) => ([Event.http req], collectionFromApiResponseD d)
    | Json.arr (_ :: _) => ([Event.http req], Except.error ZError.attributeError)
    | Json.arr [] => ([Event.http req], Except.error ZError.indexError)
    | _ => ([Event.http req], Except.error ZError.typeError)

/-- ZoteroClient.delete_collection: DELETE with the conditional headers. -/
def deleteCollection (c : Client) (net : Request → Response) (collectionId : String)
    (v : Option Int) : List Event × Except ZError Unit :=
  let req := deleteCollectionRequest c collectionId v
  let resp := net req
  if raisesStatus resp.status then
    ([Event.http req], Except.error (ZError.httpStatus resp.status))
  else ([Event.http req], Except.ok ())

/-- ZoteroClient.add_tags_to_item: one POST of all the tag dicts with the
conditional headers. -/
def addTagsToItem (c : Client) (net : Request → Response) (itemId : String) (tags : List String)
    (v : Option Int) : List Event × Except ZError Unit :=
  let req := addTagsRequest c itemId tags v
  let resp := net req
  if raisesStatus resp.status then
    ([Event.http req], Except.error (ZError.httpStatus resp.status))
  else ([Event.http req], Except.ok ())

/-- ZoteroClient.remove_tags_from_item (lines 470 to 486 of client.py): one
DELETE per tag, in list order, each response checked before the next
request is issued; the first 4xx or 5xx aborts the loop, leaving the
earlier deletions in place. -/
def removeTagsFromItem (c : Client) (net : Request → Response) (itemId : String)
    (tags : List String) (v : Option Int) : List Event × Except ZError Unit :=
  match tags with
  | [] => ([], Except.ok ())
  | tagName :: rest =>
    let req := removeTagRequest c itemId tagName v
    let resp := net req
    if raisesStatus resp.status then
      ([Event.http req], Except.error (ZError.httpStatus resp.status))
    else
      let tail := removeTagsFromItem c net itemId rest v
      (Event.http req :: tail.1, tail.2)

/-- The loop invariant of find_duplicates relating the two dicts to the
processed prefix of the input: item_map holds the first item of each
fingerprint class, dups holds exactly the classes with at least two
members, and the keys of dups are pairwise distinct. -/
def DupInv (l : List Item) (st : DupState) : Prop :=
  (∀ k, dGet st.item_map k = (withFp k l).head?)
    ∧ (∀ k, dGet st.dups k = dupVal k l)
    ∧ (st.dups.map Prod.fst).Nodup

/-- The first item of the worked duplicate example of the spec: Test
Article by Doe, dated 2023-01-01. -/
def exItemA : Item :=
  { key := "A1", title := "Test Article", item_type := "journalArticle",
    creators := [[("creatorType", "author"), ("firstName", "John"), ("lastName", "Doe")]],
    date := "2023-01-01", url := "", version := 1, parent_item := none, abstract_note := none }

/-- The second item of the worked duplicate example: same title and
creator, different key, item type and full date. -/
def exItemB : Item :=
  { key := "B2", title := "Test Article", item_type := "book",
    creators := [[("creatorType", "author"), ("firstName", "Jane"), ("lastName", "Doe")]],
    date := "2023-02-01", url := "", version := 2, parent_item := none, abstract_note := none }

/-- An item with no creators: fingerprint-ineligible. -/
def exItemNoCreators : Item :=
  { key := "C3", title := "Another Paper", item_type := "journalArticle",
    creators := [], date := "2023", url := "", version := 3,
    parent_item := none, abstract_note := none }

/-- A fixed client configuration for the concrete witnesses. -/
def testClient : Client :=
  { api_key := "KEY", user_id := "USER", library_type := "users" }

/-- The attachment template body the test oracle returns. -/
def uploadTf : List (String × Json) :=
  [("itemType", Json.str "attachment"), ("linkMode", Json.str "imported_url")]

/-- The data envelope of the create response of the test oracle, echoing
the submitted attachment metadata as the live server does. -/
def uploadDd : List (String × Json) :=
  [("key", Json.str "UPLOADATTACHMENT1"), ("itemType", Json.str "attachment"),
   ("title", Json.str "My Custom Attachment Title"), ("parentItem", Json.str "PARENTITEM123"),
   ("filename", Json.str "test_file.pdf"), ("linkMode", Json.str "imported_file")]

/-- The full create response element of the test oracle, with the upload
target href under links.file. -/
def uploadCd : List (String × Json) :=
  [("key", Json.str "UPLOADATTACHMENT1"), ("version", Json.num 1),
   ("data", Json.obj uploadDd),
   ("links", Json.obj [("file", Json.obj [("href", Json.str "https://files.zotero.example/upload")])])]

/-- The HTTP oracle for the upload witness: the template GET, the create
POST and the file PUT of the worked upload example. -/
def uploadNet (r : Request) : Response :=
  match r.method with
  | Method.get => { status := 200, body := Json.obj uploadTf, raw := [] }
  | Method.post => { status := 200, body := Json.arr [Json.obj uploadCd], raw := [] }
  | _ => { status := 204, body := Json.null, raw := [] }

/-- The filesystem oracle for the upload witness: the worked example file
with four bytes of content. -/
def uploadFs (p : String) : Option (List Nat) :=
  if p = "/path/to/test_file.pdf" then some [37, 80, 68, 70] else none

/-- The metadata body of the download witness: an attachment item with a
file link. -/
def dlItemBody : Json :=
  Json.obj
    [("key", Json.str "ATTACH1"), ("version", Json.num 5),
     ("data", Json.obj [("key", Json.str "ATTACH1"), ("itemType", Json.str "attachment")]),
     ("links", Json.obj [("file", Json.obj [("href", Json.str "https://files.zotero.example/download")])])]

/-- The HTTP oracle for the download witness: item metadata on the item
URL, three raw bytes on the file URL. -/
def dlNet (r : Request) : Response :=
  if r.url = itemUrl testClient "ATTACH1" then { status := 200, body := dlItemBody, raw := [] }
  else { status := 200, body := Json.null, raw := [9, 8, 7] }

/-- The metadata body of the non-attachment download witness. -/
def badItemBody : Json :=
  Json.obj [("data", Json.obj [("itemType", Json.str "journalArticle")]),
            ("links", Json.obj [])]

/-- The HTTP oracle returning a non-attachment item everywhere. -/
def badNet (_ : Request) : Response :=
  { status := 200, body := badItemBody, raw := [] }

/-- The metadata body of an attachment without a file link. -/
def noFileBody : Json :=
  Json.obj [("data", Json.obj [("itemType", Json.str "attachment")]),
            ("links", Json.obj [])]

/-- The HTTP oracle returning an attachment without a file link everywhere. -/
def noFileNet (_ : Request) : Response :=
  { status := 200, body := noFileBody, raw := [] }

/-- The HTTP oracle for the tag-removal witness: the DELETE of tag t2
fails with 404, every other request succeeds with 204. -/
def removeNet (r : Request) : Response :=
  if r.url = itemTagUrl testClient "ITEM1" "t2" then { status := 404, body := Json.null, raw := [] }
  else { status := 204, body := Json.null, raw := [] }

/-- The item parsed from the non-attachment download witness body. -/
def badItm : PyItem :=
  { key := Json.str "", title := Json.str "", item_type := Json.str "journalArticle",
    creators := Json.arr [], date := Json.str "", url := Json.str "",
    version := Json.num 0, parent_item := Json.null, links := Json.obj [],
    abstract_note := Json.null }

/-- The item parsed from the download witness body. -/
def dlItm : PyItem :=
  { key := Json.str "ATTACH1", title := Json.str "", item_type := Json.str "attachment",
    creators := Json.arr [], date := Json.str "", url := Json.str "",
    version := Json.num 5, parent_item := Json.null,
    links := Json.obj [("file", Json.obj [("href", Json.str "https://files.zotero.example/download")])],
    abstract_note := Json.null }

/-- The item upload_attachment synthesizes from the create response of the
upload witness oracle. -/
def uploadItm : PyItem :=
  { key := Json.str "UPLOADATTACHMENT1"
    title := Json.str "My Custom Attachment Title"
    item_type := Json.str "attachment"
    creators := Json.arr []
    date := Json.str ""
    url := Json.str ""
    version := Json.num 1
    parent_item := Json.str "PARENTITEM123"
    links := Json.obj [("file", Json.obj [("href", Json.str "https://files.zotero.example/upload")])]
    abstract_note := Json.null }

theorem dGet_append {α : Type} (l₁ l₂ : List (String × α)) (k : String) :
    dGet (l₁ ++ l₂) k = (dGet l₁ k).or (dGet l₂ k) := by
  induction l₁ with
  | nil => simp [dGet]
  | cons p ps ih =>
    by_cases h : p.1 = k
    · simp [dGet, h]
    · simp [dGet, h, ih]

theorem dGet_update_self {α : Type} (l : List (String × α)) (k : String) (v : α) :
    dGet (l.map (fun p => if p.1 = k then (k, v) else p)) k
      = (dGet l k).map (fun _ => v) := by
  induction l with
  | nil => simp [dGet]
  | cons p ps ih =>
    by_cases h : p.1 = k
    · simp [dGet, h]
    · simp [dGet, h, ih]

theorem dGet_update_ne {α : Type} (l : List (String × α)) {k k' : String} (v : α)
    (h : k' ≠ k) :
    dGet (l.map (fun p => if p.1 = k then (k, v) else p)) k' = dGet l k' := by
  induction l with
  | nil => simp [dGet]
  | cons p ps ih =>
    by_cases hp : p.1 = k
    · have : ¬ k = k' := fun hh => h hh.symm
      simp [dGet, hp, this, ih]
    · by_cases hp' : p.1 = k'
      · simp [dGet, hp, hp', h, ih]
      · simp [dGet, hp, hp', ih]

theorem keys_update {α : Type} (l : List (String × α)) (k : String) (v : α) :
    (l.map (fun p => if p.1 = k then (k, v) else p)).map Prod.fst = l.map Prod.fst := by
  induction l with
  | nil => rfl
  | cons p ps ih =>
    by_cases h : p.1 = k
    · simp [h, ih]
    · simp [h, ih]

theorem dGet_eq_none {α : Type} (l : List (String × α)) (k : String) :
    dGet l k = none ↔ k ∉ l.map Prod.fst := by
  induction l with
  | nil => simp [dGet]
  | cons p ps ih =>
    by_cases h : p.1 = k
    · simp [dGet, h]
    · simp only [dGet, h, if_false, List.map_cons, List.mem_cons, ih]
      constructor
      · rintro hn (h1 | h2)
        · exact h (h1.symm)
        · exact hn h2
      · intro hn
        exact fun hm => hn (Or.inr hm)

theorem dGet_of_mem {α : Type} {l : List (String × α)} {k : String} {v : α}
    (h : (k, v) ∈ l) (hnd : (l.map Prod.fst).Nodup) : dGet l k = some v := by
  induction l with
  | nil => cases h
  | cons p ps ih =>
    rcases List.mem_cons.mp h with h1 | h2
    · subst h1; simp [dGet]
    · have hk : k ∈ ps.map Prod.fst := List.mem_map.mpr ⟨(k, v), h2, rfl⟩
      have hnd' := (List.nodup_cons.mp hnd)
      have hne : ¬ p.1 = k := fun hh => hnd'.1 (hh ▸ hk)
      simp only [dGet, hne, if_false]
      exact ih h2 hnd'.2

theorem withFp_append (k : String) (l : List Item) (it : Item) :
    withFp k (l ++ [it])
      = withFp k l ++ (if fingerprint it = some k then [it] else []) := by
  unfold withFp
  rw [List.filter_append]
  congr 1
  by_cases h : fingerprint it = some k
  · simp [List.filter, h]
  · simp [List.filter, h]

theorem head?_append_left {α : Type} {l : List α} (t : List α) (h : l ≠ []) :
    (l ++ t).head? = l.head? := by
  cases l with
  | nil => exact absurd rfl h
  | cons a as => rfl

theorem dupVal_append_ne (k : String) (l : List Item) (it : Item)
    (h : ¬ fingerprint it = some k) : dupVal k (l ++ [it]) = dupVal k l := by
  unfold dupVal
  rw [withFp_append, if_neg h, List.append_nil]

theorem dupInv_step {l : List Item} {st : DupState} (it : Item) (h : DupInv l st) :
    DupInv (l ++ [it]) (dupStep st it) := by
  obtain ⟨hm, hd, hk⟩ := h
  cases hf0 : fingerprint it with
  | none =>
    have hno : ∀ k, ¬ fingerprint it = some k := by intro k hh; rw [hf0] at hh; cases hh
    refine ⟨?_, ?_, ?_⟩ <;> simp only [dupStep, hf0]
    · intro k
      rw [withFp_append, if_neg (hno k), List.append_nil]
      exact hm k
    · intro k
      rw [dupVal_append_ne k l it (hno k)]
      exact hd k
    · exact hk
  | some k0 =>
    have hcond : ∀ k, ¬ k = k0 → ¬ fingerprint it = some k := by
      intro k hkk hh
      rw [hf0] at hh
      exact hkk (Option.some.inj hh).symm
    cases hmm : dGet st.item_map k0 with
    | none =>
      have hnil : withFp k0 l = [] := by
        have h1 := hm k0
        rw [hmm] at h1
        exact List.head?_eq_none_iff.mp h1.symm
      refine ⟨?_, ?_, ?_⟩ <;> simp only [dupStep, hf0, hmm]
      · intro k
        rw [dGet_append]
        by_cases hkk : k = k0
        · subst hkk
          rw [hmm, withFp_append, if_pos hf0, hnil]
          simp [dGet]
        · have hne0 : ¬ k0 = k := fun hh => hkk hh.symm
          have hg : dGet [(k0, it)] k = none := by
            simp [dGet, hne0]
          rw [hg, Option.or_none, hm k, withFp_append, if_neg (hcond k hkk), List.append_nil]
      · intro k
        by_cases hkk : k = k0
        · subst hkk
          rw [hd k]
          unfold dupVal
          rw [withFp_append, if_pos hf0, hnil]
          simp
        · rw [hd k, dupVal_append_ne k l it (hcond k hkk)]
      · exact hk
    | some fst =>
      have hhead : (withFp k0 l).head? = some fst := by rw [← hm k0, hmm]
      have hne : withFp k0 l ≠ [] := by
        intro hh
        rw [hh] at hhead
        cases hhead
      cases hdd : dGet st.dups k0 with
      | none =>
        have hdup0 : dupVal k0 l = none := by rw [← hd k0, hdd]
        have hlen1 : ¬ 2 ≤ (withFp k0 l).length := by
          intro hcon
          unfold dupVal at hdup0
          rw [if_pos hcon] at hdup0
          cases hdup0
        have hsingle : withFp k0 l = [fst] := by
          cases hwl : withFp k0 l with
          | nil => exact absurd hwl hne
          | cons a as =>
            rw [hwl] at hhead hlen1
            cases as with
            | nil =>
              simp only [List.head?] at hhead
              rw [Option.some.inj hhead]
            | cons b bs => simp at hlen1
        refine ⟨?_, ?_, ?_⟩ <;> simp only [dupStep, hf0, hmm, hdd]
        · intro k
          by_cases hkk : k = k0
          · subst hkk
            rw [hmm, withFp_append, if_pos hf0, head?_append_left _ hne, hhead]
          · rw [hm k, withFp_append, if_neg (hcond k hkk), List.append_nil]
        · intro k
          rw [dGet_append]
          by_cases hkk : k = k0
          · subst hkk
            rw [hdd]
            unfold dupVal
            rw [withFp_append, if_pos hf0, hsingle]
            simp [dGet]
          · have hne0 : ¬ k0 = k := fun hh => hkk hh.symm
            have hg : dGet [(k0, [fst, it])] k = none := by
              simp [dGet, hne0]
            rw [hg, Option.or_none, hd k, dupVal_append_ne k l it (hcond k hkk)]
        · rw [List.map_append, List.nodup_append]
          refine ⟨hk, List.nodup_singleton _, ?_⟩
          intro a ha hb
          simp only [List.map_cons, List.map_nil, List.mem_singleton] at hb
          subst hb
          exact (dGet_eq_none st.dups a).mp hdd ha
      | some grp =>
        have hgrp : dupVal k0 l = some grp := by rw [← hd k0, hdd]
        have hlen2 : 2 ≤ (withFp k0 l).length ∧ grp = withFp k0 l := by
          unfold dupVal at hgrp
          by_cases hc : 2 ≤ (withFp k0 l).length
          · rw [if_pos hc] at hgrp
            exact ⟨hc, (Option.some.inj hgrp).symm⟩
          · rw [if_neg hc] at hgrp
            cases hgrp
        refine ⟨?_, ?_, ?_⟩ <;> simp only [dupStep, hf0, hmm, hdd]
        · intro k
          by_cases hkk : k = k0
          · subst hkk
            rw [hmm, withFp_append, if_pos hf0, head?_append_left _ hne, hhead]
          · rw [hm k, withFp_append, if_neg (hcond k hkk), List.append_nil]
        · intro k
          by_cases hkk : k = k0
          · subst hkk
            rw [dGet_update_self, hdd]
            unfold dupVal
            rw [withFp_append, if_pos hf0]
            have h21 := hlen2.1
            rw [if_pos (by rw [List.length_append]; simp only [List.length_singleton]; omega)]
            simp [hlen2.2]
          · rw [dGet_update_ne _ _ hkk, hd k, dupVal_append_ne k l it (hcond k hkk)]
        · rw [keys_update]
          exact hk

theorem dupInv_foldl (l₂ : List Item) : ∀ (l₁ : List Item) (st : DupState),
    DupInv l₁ st → DupInv (l₁ ++ l₂) (l₂.foldl dupStep st) := by
  induction l₂ with
  | nil =>
    intro l₁ st h
    simpa using h
  | cons it ts ih =>
    intro l₁ st h
    have h2 := ih (l₁ ++ [it]) (dupStep st it) (dupInv_step it h)
    simpa [List.append_assoc] using h2

theorem dupInv_nil : DupInv [] { item_map := [], dups := [] } := by
  refine ⟨?_, ?_, List.nodup_nil⟩
  · intro k
    simp [dGet, withFp]
  · intro k
    simp [dGet, dupVal, withFp]

theorem findDuplicates_inv (l : List Item) :
    DupInv l (l.foldl dupStep { item_map := [], dups := [] }) := by
  have h := dupInv_foldl l [] { item_map := [], dups := [] } dupInv_nil
  simpa using h

theorem findDuplicates_lookup (l : List Item) (k : String) :
    dGet (findDuplicates l) k = dupVal k l :=
  (findDuplicates_inv l).2.1 k

theorem findDuplicates_keys_nodup (l : List Item) :
    ((findDuplicates l).map Prod.fst).Nodup :=
  (findDuplicates_inv l).2.2

theorem findDuplicates_mem {l : List Item} {k : String} {grp : List Item}
    (h : (k, grp) ∈ findDuplicates l) : dupVal k l = some grp := by
  rw [← findDuplicates_lookup]
  exact dGet_of_mem h (findDuplicates_keys_nodup l)

theorem dupVal_eq_some {k : String} {l grp : List Item} (h : dupVal k l = some grp) :
    grp = withFp k l ∧ 2 ≤ (withFp k l).length := by
  unfold dupVal at h
  by_cases hc : 2 ≤ (withFp k l).length
  · rw [if_pos hc] at h
    exact ⟨(Option.some.inj h).symm, hc⟩
  · rw [if_neg hc] at h
    cases h

theorem two_le_withFp_length (l : List Item) (i j : Nat) (k : String)
    (hij : i < j) (hi : i < l.length) (hj : j < l.length)
    (hfi : fingerprint l[i] = some k) (hfj : fingerprint l[j] = some k) :
    2 ≤ (withFp k l).length := by
  have hsplit : withFp k l = withFp k (l.take j) ++ withFp k (l.drop j) := by
    unfold withFp
    rw [← List.filter_append, List.take_append_drop]
  have hit : i < (l.take j).length := by
    rw [List.length_take]
    omega
  have hgt : (l.take j)[i] = l[i] := List.getElem_take l
  have hmem1 : l[i] ∈ withFp k (l.take j) := by
    apply List.mem_filter_of_mem
    · rw [← hgt]
      exact List.getElem_mem hit
    · simp [hfi]
  have hjd : 0 < (l.drop j).length := by
    rw [List.length_drop]
    omega
  have hgd : (l.drop j)[0] = l[j] := by
    rw [List.getElem_drop l]
    congr 1
  have hmem2 : l[j] ∈ withFp k (l.drop j) := by
    apply List.mem_filter_of_mem
    · rw [← hgd]
      exact List.getElem_mem hjd
    · simp [hfj]
  have h1 := List.length_pos_of_mem hmem1
  have h2 := List.length_pos_of_mem hmem2
  rw [hsplit, List.length_append]
  omega

theorem fingerprint_eq_none_of (it : Item)
    (h : normalizedTitle it.title = "" ∨ creatorsKey it.creators = ""
        ∨ yearOf it.date = none ∨ yearOf it.date = some "") :
    fingerprint it = none := by
  unfold fingerprint
  cases hy : yearOf it.date with
  | none => rfl
  | some y =>
    rcases h with h | h | h | h
    · simp [h]
    · simp [h]
    · rw [hy] at h
      cases h
    · rw [hy] at h
      have hy0 : y = "" := Option.some.inj h
      simp [hy0]

theorem withFp_length_le_one {l : List Item}
    (hpw : l.Pairwise (fun a b => fingerprint a = none ∨ fingerprint a ≠ fingerprint b))
    (k : String) : (withFp k l).length ≤ 1 := by
  induction l with
  | nil => simp [withFp]
  | cons x xs ih =>
    have hpw' := List.pairwise_cons.mp hpw
    by_cases hx : fingerprint x = some k
    · have hxs : withFp k xs = [] := by
        unfold withFp
        rw [List.filter_eq_nil_iff]
        intro b hb
        simp only [decide_eq_true_eq]
        intro hbk
        rcases hpw'.1 b hb with hc | hc
        · rw [hx] at hc
          cases hc
        · exact hc (hx.trans hbk.symm)
      show ((x :: xs).filter (fun it => fingerprint it = some k)).length ≤ 1
      rw [List.filter_cons, if_pos (by simp [hx])]
      show (x :: withFp k xs).length ≤ 1
      rw [hxs]
      simp
    · show ((x :: xs).filter (fun it => fingerprint it = some k)).length ≤ 1
      rw [List.filter_cons, if_neg (by simp [hx])]
      exact ih hpw'.2

/-- C1: two input items at distinct positions with the same fingerprint key
(equal normalized title, equal sorted lowercased non-empty creator last
names, equal year prefix, the key being the dash-joined fingerprint) both
end up in the group the returned mapping holds under that key, whose
contents are the input items with that fingerprint in first-seen input
order, whatever their item types, keys or full dates; in particular the
two Test Article items by Doe dated 2023-01-01 and 2023-02-01 yield the
single group testarticle-doe-2023 holding both in input order. -/
theorem find_duplicates_groups_pair (l : List Item) (i j : Nat) (k : String)
    (hij : i < j) (hi : i < l.length) (hj : j < l.length)
    (hfi : fingerprint l[i] = some k) (hfj : fingerprint l[j] = some k) :
    dGet (findDuplicates l) k = some (withFp k l)
      ∧ l[i] ∈ withFp k l ∧ l[j] ∈ withFp k l
      ∧ findDuplicates [exItemA, exItemB] = [("testarticle-doe-2023", [exItemA, exItemB])] := by
  have hlen2 := two_le_withFp_length l i j k hij hi hj hfi hfj
  refine ⟨?_, ?_, ?_, by decide⟩
  · rw [findDuplicates_lookup]
    unfold dupVal
    rw [if_pos hlen2]
  · exact List.mem_filter_of_mem (List.getElem_mem hi) (by simp [hfi])
  · exact List.mem_filter_of_mem (List.getElem_mem hj) (by simp [hfj])

theorem find_duplicates_groups_pair_witness :
    dGet (findDuplicates [exItemA, exItemB]) "testarticle-doe-2023"
      = some (withFp "testarticle-doe-2023" [exItemA, exItemB]) :=
  (find_duplicates_groups_pair [exItemA, exItemB] 0 1 "testarticle-doe-2023"
    (by decide) (by decide) (by decide) (by decide) (by decide)).1

/-- C3: an input item whose normalized title is empty, or whose creators
hold no non-empty last name, or whose date yields no year (absent date or
empty prefix before the first dash) is never a member of any group of the
mapping find_duplicates returns. -/
theorem find_duplicates_excludes_ineligible (l : List Item) (it : Item) (_hmem : it ∈ l)
    (h : normalizedTitle it.title = "" ∨ creatorsKey it.creators = ""
        ∨ yearOf it.date = none ∨ yearOf it.date = some "") :
    ∀ k grp, (k, grp) ∈ findDuplicates l → it ∉ grp := by
  intro k grp hg hmemg
  have hdv := findDuplicates_mem hg
  obtain ⟨hgrp, _⟩ := dupVal_eq_some hdv
  rw [hgrp] at hmemg
  have hsp := List.mem_filter.mp hmemg
  have hfk : fingerprint it = some k := by simpa using hsp.2
  rw [fingerprint_eq_none_of it h] at hfk
  cases hfk

theorem find_duplicates_excludes_ineligible_witness :
    exItemNoCreators ∉ [exItemA, exItemB] :=
  find_duplicates_excludes_ineligible [exItemA, exItemB, exItemNoCreators] exItemNoCreators
    (by decide) (Or.inr (Or.inl (by decide)))
    "testarticle-doe-2023" [exItemA, exItemB] (by decide)

/-- C7: every group of the returned mapping has at least two members, and
when no two fingerprint-eligible input items share a fingerprint the
returned mapping is empty. -/
theorem find_duplicates_groups_min_two (l : List Item) :
    (∀ k grp, (k, grp) ∈ findDuplicates l → 2 ≤ grp.length)
      ∧ (l.Pairwise (fun a b => fingerprint a = none ∨ fingerprint a ≠ fingerprint b) →
          findDuplicates l = []) := by
  constructor
  · intro k grp hg
    obtain ⟨hgrp, hlen⟩ := dupVal_eq_some (findDuplicates_mem hg)
    rw [hgrp]
    exact hlen
  · intro hpw
    have hnone : ∀ k, dGet (findDuplicates l) k = none := by
      intro k
      rw [findDuplicates_lookup]
      unfold dupVal
      rw [if_neg (by have := withFp_length_le_one hpw k; omega)]
    cases hfd : findDuplicates l with
    | nil => rfl
    | cons p ps =>
      have hp := hnone p.1
      rw [hfd] at hp
      simp [dGet] at hp

theorem find_duplicates_groups_min_two_witness :
    findDuplicates [exItemA, exItemNoCreators] = [] :=
  (find_duplicates_groups_min_two [exItemA, exItemNoCreators]).2 (by decide)

theorem fromApiResponseD_data_obj {cdf dd : List (String × Json)}
    (h : dGet cdf "data" = some (Json.obj dd)) :
    fromApiResponseD cdf = Except.ok
      { key := (dGet dd "key").getD (Json.str "")
        title := (dGet dd "title").getD (Json.str "")
        item_type := (dGet dd "itemType").getD (Json.str "")
        creators := (dGet dd "creators").getD (Json.arr [])
        date := (dGet dd "date").getD (Json.str "")
        url := (dGet dd "url").getD (Json.str "")
        version := (dGet cdf "version").getD (Json.num 0)
        parent_item := (dGet dd "parentItem").getD Json.null
        links := (dGet cdf "links").getD (Json.obj [])
        abstract_note := (dGet dd "abstractNote").getD Json.null } := by
  unfold fromApiResponseD
  rw [h]
  rfl

theorem uploadAttachment_run (c : Client) (net : Request → Response)
    (fs : String → Option (List Nat)) (p f : String) (t : Option String)
    (tf : List (String × Json)) (cd : Json) (rest : List Json)
    (u : String) (bytes : List Nat) (itm : PyItem)
    (h1 : net (templateRequest c p) = { status := 200, body := Json.obj tf, raw := [] })
    (h2 : net (createRequest c (attachmentPayload tf p (basename f) (resolvedTitle t (basename f))))
        = { status := 200, body := Json.arr (cd :: rest), raw := [] })
    (h3 : fromApiResponseJ cd = Except.ok itm)
    (h4 : hrefOf cd = Except.ok u)
    (h5 : fs f = some bytes)
    (h6 : raisesStatus (net (putFileRequest c u bytes)).status = false) :
    uploadAttachment c net fs p f t =
      ([Event.http (templateRequest c p),
        Event.http (createRequest c
          (attachmentPayload tf p (basename f) (resolvedTitle t (basename f)))),
        Event.fileRead f,
        Event.http (putFileRequest c u bytes)],
       Except.ok itm) := by
  have h200 : raisesStatus 200 = false := rfl
  have e1 : getAttachmentTemplate c net p
      = ([Event.http (templateRequest c p)], Except.ok (Json.obj tf)) := by
    simp [getAttachmentTemplate, h1, h200]
  unfold uploadAttachment
  rw [e1]
  simp [h2, h200, h3, h4, h5, h6]

/-- C2: on the success path, upload_attachment performs exactly three HTTP
calls in order: the template GET on items/new with params itemType
attachment, linkMode imported_url, parentItem p; the create POST of the
single-element array holding the template overlaid with the title (the
caller's, or the file base name), parentItem, filename, the fixed
contentType and linkMode imported_file; and the PUT of the raw file bytes
to the links.file.href of the create response with the Content-Type
application/octet-stream header; the local file is read only in phase 3,
after both network calls, as the trace order shows. -/
theorem upload_attachment_protocol (c : Client) (net : Request → Response)
    (fs : String → Option (List Nat)) (p f : String) (t : Option String)
    (tf : List (String × Json)) (cd : Json) (rest : List Json)
    (u : String) (bytes : List Nat) (itm : PyItem)
    (hp : p ≠ "")
    (h1 : net (templateRequest c p) = { status := 200, body := Json.obj tf, raw := [] })
    (h2 : net (createRequest c (attachmentPayload tf p (basename f) (resolvedTitle t (basename f))))
        = { status := 200, body := Json.arr (cd :: rest), raw := [] })
    (h3 : fromApiResponseJ cd = Except.ok itm)
    (h4 : hrefOf cd = Except.ok u)
    (h5 : fs f = some bytes)
    (h6 : raisesStatus (net (putFileRequest c u bytes)).status = false) :
    (uploadAttachment c net fs p f t).1
        = [Event.http (templateRequest c p),
           Event.http (createRequest c
             (attachmentPayload tf p (basename f) (resolvedTitle t (basename f)))),
           Event.fileRead f,
           Event.http (putFileRequest c u bytes)]
      ∧ templateRequest c p
          = { method := Method.get, url := itemsNewUrl c, headers := c.headersL,
              params := [("itemType", "attachment"), ("linkMode", "imported_url"),
                ("parentItem", p)],
              jsonBody := none, rawBody := none }
      ∧ createRequest c (attachmentPayload tf p (basename f) (resolvedTitle t (basename f)))
          = { method := Method.post, url := itemsUrl c, headers := c.headersL, params := [],
              jsonBody := some (Json.arr [Json.obj
                (attachmentPayload tf p (basename f) (resolvedTitle t (basename f)))]),
              rawBody := none }
      ∧ putFileRequest c u bytes
          = { method := Method.put, url := u,
              headers := c.headersL ++ [("Content-Type", "application/octet-stream")],
              params := [], jsonBody := none, rawBody := some bytes } := by
  refine ⟨?_, ?_, rfl, ?_⟩
  · rw [uploadAttachment_run c net fs p f t tf cd rest u bytes itm h1 h2 h3 h4 h5 h6]
  · simp [templateRequest, hp]
  · simp [putFileRequest, dSet, Client.headersL]

theorem upload_attachment_protocol_witness :
    (uploadAttachment testClient uploadNet uploadFs "PARENTITEM123" "/path/to/test_file.pdf"
        (some "My Custom Attachment Title")).1
      = [Event.http (templateRequest testClient "PARENTITEM123"),
         Event.http (createRequest testClient
           (attachmentPayload uploadTf "PARENTITEM123" "test_file.pdf"
             "My Custom Attachment Title")),
         Event.fileRead "/path/to/test_file.pdf",
         Event.http (putFileRequest testClient "https://files.zotero.example/upload"
           [37, 80, 68, 70])] := by
  exact (upload_attachment_protocol testClient uploadNet uploadFs "PARENTITEM123"
    "/path/to/test_file.pdf" (some "My Custom Attachment Title") uploadTf (Json.obj uploadCd) []
    "https://files.zotero.example/upload" [37, 80, 68, 70] uploadItm
    (by decide) rfl rfl rfl rfl rfl rfl).1

/-- C6: the item upload_attachment returns is synthesized from the phase-2
create response (the trace shows no further request after the phase-3 PUT,
in particular no re-fetching GET); its title is the caller-supplied title,
or the file base name when none was supplied, whenever the create response
data echoes the submitted title as the live server does, and its key is
the key field of the create response data. -/
theorem upload_attachment_result (c : Client) (net : Request → Response)
    (fs : String → Option (List Nat)) (p f : String) (t : Option String)
    (tf : List (String × Json)) (cd0 dd : List (String × Json)) (rest : List Json)
    (u kk : String) (bytes : List Nat)
    (h1 : net (templateRequest c p) = { status := 200, body := Json.obj tf, raw := [] })
    (h2 : net (createRequest c (attachmentPayload tf p (basename f) (resolvedTitle t (basename f))))
        = { status := 200, body := Json.arr (Json.obj cd0 :: rest), raw := [] })
    (h3 : dGet cd0 "data" = some (Json.obj dd))
    (h4 : dGet dd "title" = some (Json.str (resolvedTitle t (basename f))))
    (h5 : dGet dd "key" = some (Json.str kk))
    (h6 : hrefOf (Json.obj cd0) = Except.ok u)
    (h7 : fs f = some bytes)
    (h8 : raisesStatus (net (putFileRequest c u bytes)).status = false) :
    ∃ itm : PyItem,
      uploadAttachment c net fs p f t
          = ([Event.http (templateRequest c p),
              Event.http (createRequest c
                (attachmentPayload tf p (basename f) (resolvedTitle t (basename f)))),
              Event.fileRead f,
              Event.http (putFileRequest c u bytes)],
             Except.ok itm)
        ∧ itm.title = Json.str (resolvedTitle t (basename f))
        ∧ itm.key = Json.str kk := by
  have hfa : fromApiResponseJ (Json.obj cd0) = Except.ok
      { key := (dGet dd "key").getD (Json.str "")
        title := (dGet dd "title").getD (Json.str "")
        item_type := (dGet dd "itemType").getD (Json.str "")
        creators := (dGet dd "creators").getD (Json.arr [])
        date := (dGet dd "date").getD (Json.str "")
        url := (dGet dd "url").getD (Json.str "")
        version := (dGet cd0 "version").getD (Json.num 0)
        parent_item := (dGet dd "parentItem").getD Json.null
        links := (dGet cd0 "links").getD (Json.obj [])
        abstract_note := (dGet dd "abstractNote").getD Json.null } := by
    unfold fromApiResponseJ
    exact fromApiResponseD_data_obj h3
  refine ⟨_, uploadAttachment_run c net fs p f t tf (Json.obj cd0) rest u bytes _
    h1 h2 hfa h6 h7 h8, ?_, ?_⟩
  · show (dGet dd "title").getD (Json.str "") = Json.str (resolvedTitle t (basename f))
    rw [h4]
    rfl
  · show (dGet dd "key").getD (Json.str "") = Json.str kk
    rw [h5]
    rfl

theorem upload_attachment_result_witness :
    ∃ itm : PyItem,
      uploadAttachment testClient uploadNet uploadFs "PARENTITEM123" "/path/to/test_file.pdf"
          (some "My Custom Attachment Title")
          = ([Event.http (templateRequest testClient "PARENTITEM123"),
              Event.http (createRequest testClient
                (attachmentPayload uploadTf "PARENTITEM123" "test_file.pdf"
                  "My Custom Attachment Title")),
              Event.fileRead "/path/to/test_file.pdf",
              Event.http (putFileRequest testClient "https://files.zotero.example/upload"
                [37, 80, 68, 70])],
             Except.ok itm)
        ∧ itm.title = Json.str "My Custom Attachment Title"
        ∧ itm.key = Json.str "UPLOADATTACHMENT1" := by
  exact upload_attachment_result testClient uploadNet uploadFs "PARENTITEM123"
    "/path/to/test_file.pdf" (some "My Custom Attachment Title") uploadTf uploadCd uploadDd []
    "https://files.zotero.example/upload" "UPLOADATTACHMENT1" [37, 80, 68, 70]
    rfl rfl rfl rfl rfl rfl rfl rfl

/-- C4: when the fetched item is not an attachment, download_attachment
stops with the ValueError naming the requested item id after the single
metadata GET, issuing no file GET and writing nothing; and when the
fetched links mapping has no file entry, it likewise stops after the
single metadata GET with a ValueError whose message names the attachment
id. -/
theorem download_attachment_validation (c : Client) (net : Request → Response)
    (id out : String) (body : Json) (itm : PyItem)
    (h1 : net (getItemRequest c id) = { status := 200, body := body, raw := [] })
    (h2 : fromApiResponseJ body = Except.ok itm) :
    (¬ pyEqStr itm.item_type "attachment" = true →
        downloadAttachment c net id out
          = ([Event.http (getItemRequest c id)],
             Except.error (ZError.valueError ("Item " ++ id ++ " is not an attachment."))))
      ∧ (∀ lf : List (String × Json), itm.links = Json.obj lf → dGet lf "file" = none →
          ∃ pre post : String,
            downloadAttachment c net id out
              = ([Event.http (getItemRequest c id)],
                 Except.error (ZError.valueError (pre ++ id ++ post)))) := by
  have h200 : raisesStatus 200 = false := rfl
  constructor
  · intro hty
    simp [downloadAttachment, h1, h200, h2, hty]
  · intro lf hlf hfile
    by_cases hty : pyEqStr itm.item_type "attachment" = true
    · refine ⟨"Attachment ", " does not have a downloadable file.", ?_⟩
      simp [downloadAttachment, h1, h200, h2, hty, hlf, hfile]
    · refine ⟨"Item ", " is not an attachment.", ?_⟩
      simp [downloadAttachment, h1, h200, h2, hty]

theorem download_attachment_validation_witness :
    downloadAttachment testClient badNet "ITEM9" "/tmp/out.bin"
      = ([Event.http (getItemRequest testClient "ITEM9")],
         Except.error (ZError.valueError "Item ITEM9 is not an attachment.")) := by
  exact (download_attachment_validation testClient badNet "ITEM9" "/tmp/out.bin"
    badItemBody badItm rfl rfl).1 (by decide)

/-- C8: on a successful download, download_attachment performs the
metadata GET and the file GET, writes to the destination path exactly the
bytes of the file GET response body (an overwriting write of the whole
body), and returns the destination path unchanged. -/
theorem download_attachment_roundtrip (c : Client) (net : Request → Response)
    (id out : String) (body fbody : Json) (itm : PyItem) (lf : List (String × Json))
    (fv : Json) (u : String) (bytes : List Nat)
    (h1 : net (getItemRequest c id) = { status := 200, body := body, raw := [] })
    (h2 : fromApiResponseJ body = Except.ok itm)
    (h3 : pyEqStr itm.item_type "attachment" = true)
    (h4 : itm.links = Json.obj lf)
    (h5 : dGet lf "file" = some fv)
    (h6 : jIndex fv "href" = Except.ok (Json.str u))
    (h7 : net (fileGetRequest c u) = { status := 200, body := fbody, raw := bytes }) :
    downloadAttachment c net id out
      = ([Event.http (getItemRequest c id), Event.http (fileGetRequest c u),
          Event.fileWrite out bytes],
         Except.ok out) := by
  have h200 : raisesStatus 200 = false := rfl
  simp [downloadAttachment, h1, h200, h2, h3, h4, h5, h6, h7]

theorem download_attachment_roundtrip_witness :
    downloadAttachment testClient dlNet "ATTACH1" "/tmp/file.bin"
      = ([Event.http (getItemRequest testClient "ATTACH1"),
          Event.http (fileGetRequest testClient "https://files.zotero.example/download"),
          Event.fileWrite "/tmp/file.bin" [9, 8, 7]],
         Except.ok "/tmp/file.bin") := by
  exact download_attachment_roundtrip testClient dlNet "ATTACH1" "/tmp/file.bin"
    dlItemBody Json.null dlItm
    [("file", Json.obj [("href", Json.str "https://files.zotero.example/download")])]
    (Json.obj [("href", Json.str "https://files.zotero.example/download")])
    "https://files.zotero.example/download" [9, 8, 7]
    rfl rfl rfl rfl rfl rfl rfl

/-- C5 as stated fails at version 0: the Python truthiness test on the
supplied version drops the header. The request of update_item with
expected version 0 does not carry If-Unmodified-Since-Version equal to
the string 0. -/
theorem mutating_version_header_cex :
    ¬ dGet (updateItemRequest testClient "ITEM1" (Json.obj []) (some 0)).headers
        "If-Unmodified-Since-Version" = some "0" := by
  decide

/-- C5 (amended): every mutating request builder supplied a nonzero
expected version carries If-Unmodified-Since-Version with the decimal
string of the version appended to the otherwise unchanged base headers;
supplied no version (or version 0, by Python truthiness), the headers are
exactly the base headers, which never hold that header. -/
theorem mutating_version_header (c : Client) (itemId collectionId tagName : String)
    (itemData collectionData : Json) (tags : List String) (n : Int) (hn : n ≠ 0) :
    ((updateItemRequest c itemId itemData (some n)).headers
        = c.headersL ++ [("If-Unmodified-Since-Version", toString n)]
      ∧ (deleteItemRequest c itemId (some n)).headers
        = c.headersL ++ [("If-Unmodified-Since-Version", toString n)]
      ∧ (updateCollectionRequest c collectionId collectionData (some n)).headers
        = c.headersL ++ [("If-Unmodified-Since-Version", toString n)]
      ∧ (deleteCollectionRequest c collectionId (some n)).headers
        = c.headersL ++ [("If-Unmodified-Since-Version", toString n)]
      ∧ (addTagsRequest c itemId tags (some n)).headers
        = c.headersL ++ [("If-Unmodified-Since-Version", toString n)]
      ∧ (removeTagRequest c itemId tagName (some n)).headers
        = c.headersL ++ [("If-Unmodified-Since-Version", toString n)])
    ∧ ((updateItemRequest c itemId itemData none).headers = c.headersL
      ∧ (deleteItemRequest c itemId none).headers = c.headersL
      ∧ (updateCollectionRequest c collectionId collectionData none).headers = c.headersL
      ∧ (deleteCollectionRequest c collectionId none).headers = c.headersL
      ∧ (addTagsRequest c itemId tags none).headers = c.headersL
      ∧ (removeTagRequest c itemId tagName none).headers = c.headersL)
    ∧ dGet c.headersL "If-Unmodified-Since-Version" = none := by
  have hch : condHeaders c (some n)
      = c.headersL ++ [("If-Unmodified-Since-Version", toString n)] := by
    simp [condHeaders, hn, dSet, Client.headersL]
  have hcn : condHeaders c none = c.headersL := rfl
  refine ⟨⟨?_, ?_, ?_, ?_, ?_, ?_⟩, ⟨?_, ?_, ?_, ?_, ?_, ?_⟩, ?_⟩ <;>
    simp [updateItemRequest, deleteItemRequest, updateCollectionRequest,
      deleteCollectionRequest, addTagsRequest, removeTagRequest, hch, hcn,
      Client.headersL, dGet]

theorem mutating_version_header_witness :
    (updateItemRequest testClient "ITEM1" (Json.obj []) (some 3)).headers
      = testClient.headersL ++ [("If-Unmodified-Since-Version", toString (3 : Int))] :=
  (mutating_version_header testClient "ITEM1" "COLL1" "tag1" (Json.obj []) (Json.obj [])
    ["tag1"] 3 (by decide)).1.1

theorem removeTags_all_ok (c : Client) (net : Request → Response) (itemId : String)
    (v : Option Int) (tags : List String)
    (h : ∀ t ∈ tags, raisesStatus (net (removeTagRequest c itemId t v)).status = false) :
    removeTagsFromItem c net itemId tags v
      = (tags.map (fun t => Event.http (removeTagRequest c itemId t v)), Except.ok ()) := by
  induction tags with
  | nil => rfl
  | cons t ts ih =>
    have ht := h t (List.mem_cons_self t ts)
    have hts : ∀ t' ∈ ts, raisesStatus (net (removeTagRequest c itemId t' v)).status = false :=
      fun t' ht' => h t' (List.mem_cons_of_mem t ht')
    simp [removeTagsFromItem, ht, ih hts]

theorem removeTags_first_fail (c : Client) (net : Request → Response) (itemId : String)
    (v : Option Int) : ∀ (tags : List String) (i : Nat) (hi : i < tags.length),
    (∀ t ∈ tags.take i, raisesStatus (net (removeTagRequest c itemId t v)).status = false) →
    raisesStatus (net (removeTagRequest c itemId tags[i] v)).status = true →
    removeTagsFromItem c net itemId tags v
      = ((tags.take (i + 1)).map (fun t => Event.http (removeTagRequest c itemId t v)),
         Except.error (ZError.httpStatus (net (removeTagRequest c itemId tags[i] v)).status)) := by
  intro tags
  induction tags with
  | nil =>
    intro i hi
    cases hi
  | cons t ts ih =>
    intro i hi hok hfail
    cases i with
    | zero =>
      simp only [List.getElem_cons_zero] at hfail
      simp [removeTagsFromItem, hfail]
    | succ i' =>
      have ht : raisesStatus (net (removeTagRequest c itemId t v)).status = false := by
        apply hok
        simp [List.take_succ_cons]
      have hok' : ∀ t' ∈ ts.take i',
          raisesStatus (net (removeTagRequest c itemId t' v)).status = false := by
        intro t' ht'
        apply hok
        simp [List.take_succ_cons, ht']
      have hlen : i' < ts.length := by simpa using hi
      have hfail' : raisesStatus (net (removeTagRequest c itemId ts[i'] v)).status = true := by
        simpa using hfail
      simp [removeTagsFromItem, ht, ih i' hlen hok' hfail', List.take_succ_cons]

/-- C9: remove_tags_from_item issues one DELETE per tag in input order;
when every response is a success the trace is exactly one DELETE per input
tag; when the request of tag i is the first to fail, the trace is exactly
the DELETEs of the first i+1 tags (the remaining tags get no request, the
earlier deletions are not undone) and the HTTP error is surfaced. -/
theorem remove_tags_sequential (c : Client) (net : Request → Response) (itemId : String)
    (v : Option Int) (tags : List String) :
    ((∀ t ∈ tags, raisesStatus (net (removeTagRequest c itemId t v)).status = false) →
        removeTagsFromItem c net itemId tags v
          = (tags.map (fun t => Event.http (removeTagRequest c itemId t v)), Except.ok ()))
      ∧ (∀ (i : Nat) (hi : i < tags.length),
          (∀ t ∈ tags.take i, raisesStatus (net (removeTagRequest c itemId t v)).status = false) →
          raisesStatus (net (removeTagRequest c itemId tags[i] v)).status = true →
          removeTagsFromItem c net itemId tags v
            = ((tags.take (i + 1)).map (fun t => Event.http (removeTagRequest c itemId t v)),
               Except.error (ZError.httpStatus (net (removeTagRequest c itemId tags[i] v)).status))) :=
  ⟨removeTags_all_ok c net itemId v tags,
   fun i hi => removeTags_first_fail c net itemId v tags i hi⟩

theorem remove_tags_sequential_witness :
    removeTagsFromItem testClient removeNet "ITEM1" ["t1", "t2", "t3"] none
      = ([Event.http (removeTagRequest testClient "ITEM1" "t1" none),
          Event.http (removeTagRequest testClient "ITEM1" "t2" none)],
         Except.error (ZError.httpStatus 404)) := by
  exact (remove_tags_sequential testClient removeNet "ITEM1" none ["t1", "t2", "t3"]).2
    1 (by decide) (by decide) (by decide)

/-- C10 as stated fails on a dict whose data entry is not itself a dict:
Item.from_api_response then calls the get attribute of a non-dict and
raises AttributeError instead of returning an Item. -/
theorem from_api_response_total_cex :
    ¬ ∃ itm : PyItem, fromApiResponseD [("data", Json.str "x")] = Except.ok itm := by
  rintro ⟨itm, h⟩
  exact Except.noConfusion h

/-- C10 (amended): Item.from_api_response returns an Item without raising
on every input dict whose data entry, when present, is itself a dict (in
particular on a dict lacking the data envelope, the links mapping or any
individual field), with key, title, itemType, date and url defaulting to
the empty string, creators to the empty list, version to 0, links to the
empty mapping, and parentItem and abstractNote to None. -/
theorem from_api_response_total (d : List (String × Json))
    (h : ∀ j, dGet d "data" = some j → ∃ dd, j = Json.obj dd) :
    ∃ itm : PyItem, fromApiResponseD d = Except.ok itm
      ∧ (dGet d "version" = none → itm.version = Json.num 0)
      ∧ (dGet d "links" = none → itm.links = Json.obj [])
      ∧ ∀ dd : List (String × Json),
          (dGet d "data" = none ∧ dd = [] ∨ dGet d "data" = some (Json.obj dd)) →
          ((dGet dd "key" = none → itm.key = Json.str "")
            ∧ (dGet dd "title" = none → itm.title = Json.str "")
            ∧ (dGet dd "itemType" = none → itm.item_type = Json.str "")
            ∧ (dGet dd "date" = none → itm.date = Json.str "")
            ∧ (dGet dd "url" = none → itm.url = Json.str "")
            ∧ (dGet dd "creators" = none → itm.creators = Json.arr [])
            ∧ (dGet dd "parentItem" = none → itm.parent_item = Json.null)
            ∧ (dGet dd "abstractNote" = none → itm.abstract_note = Json.null)) := by
  cases hd : dGet d "data" with
  | none =>
    refine ⟨
      { key := Json.str "", title := Json.str "", item_type := Json.str "",
        creators := Json.arr [], date := Json.str "", url := Json.str "",
        version := (dGet d "version").getD (Json.num 0), parent_item := Json.null,
        links := (dGet d "links").getD (Json.obj []), abstract_note := Json.null }, ?_, ?_, ?_, ?_⟩
    · unfold fromApiResponseD
      rw [hd]
      rfl
    · intro hv
      show (dGet d "version").getD (Json.num 0) = Json.num 0
      rw [hv]
      rfl
    · intro hl
      show (dGet d "links").getD (Json.obj []) = Json.obj []
      rw [hl]
      rfl
    · intro dd hdd
      rcases hdd with ⟨_, hdd⟩ | hdd
      · subst hdd
        exact ⟨fun _ => rfl, fun _ => rfl, fun _ => rfl, fun _ => rfl, fun _ => rfl,
          fun _ => rfl, fun _ => rfl, fun _ => rfl⟩
      · exact Option.noConfusion hdd
  | some j =>
    obtain ⟨dd0, hj⟩ := h j hd
    subst hj
    refine ⟨_, fromApiResponseD_data_obj hd, ?_, ?_, ?_⟩
    · intro hv
      show (dGet d "version").getD (Json.num 0) = Json.num 0
      rw [hv]
      rfl
    · intro hl
      show (dGet d "links").getD (Json.obj []) = Json.obj []
      rw [hl]
      rfl
    · intro dd hdd
      rcases hdd with ⟨hnone, _⟩ | hsome
      · exact Option.noConfusion hnone
      · have hdd0 : dd = dd0 := (Json.obj.inj (Option.some.inj hsome)).symm
        subst hdd0
        refine ⟨?_, ?_, ?_, ?_, ?_, ?_, ?_, ?_⟩ <;> intro hx <;>
          simp only [hx] <;> rfl

theorem from_api_response_total_witness :
    ∃ itm : PyItem, fromApiResponseD [] = Except.ok itm
      ∧ itm.version = Json.num 0 ∧ itm.key = Json.str "" := by
  obtain ⟨itm, hok, hv, _, hflds⟩ := from_api_response_total []
    (fun j hj => by simp [dGet] at hj)
  have hf := hflds [] (Or.inl ⟨rfl, rfl⟩)
  exact ⟨itm, hok, hv rfl, hf.1 rfl⟩

end Zotero
